import Mathlib

/-!
Verification development for the logo-generation backend
(`app/services/logo_service.py`, `app/tasks/logo_generate.py`,
`app/services/image_service.py`, `app/api/logo.py`, `app/utils/ai_client.py`).

The asynchronous job lifecycle is embedded shallowly:

* the task store is a list of `LogoTask` rows; SQLAlchemy's
  `query(...).filter(id ==, openid ==).first()` becomes `List.find?`,
  and mutate-then-commit on the found row becomes `updateFirst`;
* wall-clock time (`datetime.now()`) is an explicit `Int` of seconds;
* Python's `str(list_of_str)` (what `create_logo_task` stores into the
  `styles` / `colors` text columns) and `json` (what the worker stores and
  the read paths parse) are modelled by small executable codecs;
* Celery's `self.retry(exc=e, countdown=5)` always raises (a `Retry`
  while retries remain, the original exception once the budget
  `max_retries=3` is spent), so the statements following it in the
  `except` block are unreachable; the worker model reflects that;
* external effects (HTTP call of the provider, presigned-URL signing,
  the task queue) are explicit inputs / outputs of the functions.
-/

deriving instance DecidableEq for Except

namespace LogoGen

/-- A row of the `logo_tasks` table (`app/models/logo.py`).  `styles` and
`colors` are `Text` columns holding whatever string the writer produced;
`description` and `result` are nullable.  `create_time` is seconds. -/
structure LogoTask where
  id : String
  openid : String
  company_name : String
  industry : String
  styles : String
  colors : String
  description : Option String
  status : String
  result : Option String
  create_time : Int
deriving DecidableEq, Repr

/-- The task store. -/
abbrev DB := List LogoTask

/-- An `HTTPException`: status code and detail message. -/
structure HErr where
  status_code : Nat
  detail : String
deriving DecidableEq, Repr

/-- The scoped lookup `db.query(LogoTask).filter(LogoTask.id == task_id,
LogoTask.openid == openid).first()`. -/
def findTask (db : DB) (task_id openid : String) : Option LogoTask :=
  List.find? (fun t => t.id == task_id && t.openid == openid) db

/-- Mutating the row found by `.first()` and committing: replace the first
row matching the predicate. -/
def updateFirst (p : LogoTask → Bool) (f : LogoTask → LogoTask) : DB → DB
  | [] => []
  | t :: ts => if p t then f t :: ts else t :: updateFirst p f ts

/-- Model of `uuid4().replace("-", "")`: removing every dash. -/
def stripDashes (s : String) : String :=
  String.mk (s.data.filter (fun c => c ≠ '-'))

/-- Escaping used by CPython `repr` on a string: backslash and the chosen
quote character are escaped (control characters do not occur in the inputs
this repository handles). -/
def pyEscape (quote : Char) (s : String) : String :=
  String.mk (s.data.foldr
    (fun c acc => if c = '\\' || c = quote then '\\' :: c :: acc else c :: acc) [])

/-- CPython `repr` of a string: single quotes, except that a string that
contains a single quote and no double quote is rendered in double quotes. -/
def pyReprStr (s : String) : String :=
  if s.data.contains '\'' && !(s.data.contains '"') then
    "\"" ++ pyEscape '"' s ++ "\""
  else
    "'" ++ pyEscape '\'' s ++ "'"

/-- CPython `str()` of a list of strings, e.g. `str(["a"]) = "['a']"`.
This is what `create_logo_task` stores into the `styles` and `colors`
columns. -/
def pyStrOfList (l : List String) : String :=
  "[" ++ String.intercalate ", " (l.map pyReprStr) ++ "]"

/-- Model of `json.dumps` escaping for the strings this system stores (quote and
backslash; other characters pass through). -/
def jsonEscape (s : String) : String :=
  String.mk (s.data.foldr
    (fun c acc => if c = '"' || c = '\\' then '\\' :: c :: acc else c :: acc) [])

/-- Model of `json.dumps` of a list of strings, matching CPython's output
(`", "` separator, double-quoted items). -/
def jsonDumps (l : List String) : String :=
  "[" ++ String.intercalate ", " (l.map (fun s => "\"" ++ jsonEscape s ++ "\"")) ++ "]"

/-- Parser state for `json.loads` restricted to an array of strings (the
only array shape this system stores). -/
inductive ArrPS
  | itemOrClose | item | inStr | esc | commaOrClose | done
deriving DecidableEq, Repr

/-- One character per step; `cur` accumulates the current string reversed,
`acc` the items reversed. -/
def jsonLoadsAux : List Char → ArrPS → List Char → List String → Option (List String)
  | [], ArrPS.done, _, acc => some acc.reverse
  | [], _, _, _ => none
  | c :: cs, ArrPS.itemOrClose, cur, acc =>
    if c = ' ' then jsonLoadsAux cs ArrPS.itemOrClose cur acc
    else if c = ']' then jsonLoadsAux cs ArrPS.done cur acc
    else if c = '"' then jsonLoadsAux cs ArrPS.inStr [] acc
    else none
  | c :: cs, ArrPS.item, cur, acc =>
    if c = ' ' then jsonLoadsAux cs ArrPS.item cur acc
    else if c = '"' then jsonLoadsAux cs ArrPS.inStr [] acc
    else none
  | c :: cs, ArrPS.inStr, cur, acc =>
    if c = '"' then jsonLoadsAux cs ArrPS.commaOrClose [] (String.mk cur.reverse :: acc)
    else if c = '\\' then jsonLoadsAux cs ArrPS.esc cur acc
    else jsonLoadsAux cs ArrPS.inStr (c :: cur) acc
  | c :: cs, ArrPS.esc, cur, acc =>
    if c = '"' || c = '\\' then jsonLoadsAux cs ArrPS.inStr (c :: cur) acc
    else none
  | c :: cs, ArrPS.commaOrClose, cur, acc =>
    if c = ' ' then jsonLoadsAux cs ArrPS.commaOrClose cur acc
    else if c = ',' then jsonLoadsAux cs ArrPS.item cur acc
    else if c = ']' then jsonLoadsAux cs ArrPS.done cur acc
    else none
  | c :: cs, ArrPS.done, cur, acc =>
    if c = ' ' then jsonLoadsAux cs ArrPS.done cur acc
    else none

/-- Model of `json.loads` on a JSON array of strings; `none` is a
`json.JSONDecodeError`.  In particular the single-quoted output of
CPython `str()` on a non-empty list is rejected, as the real
`json.loads` rejects it. -/
def jsonLoads (s : String) : Option (List String) :=
  match s.data with
  | '[' :: rest => jsonLoadsAux rest ArrPS.itemOrClose [] []
  | _ => none

/-- Parser state for `json.loads` restricted to a JSON object whose values
are arrays of strings — the `{"logos": [...], "hd_keys": [...]}` shape that
`get_hd_logo_url` expects to find in the `result` column. -/
inductive ObjPS
  | keyOrClose | key | inKey | keyEsc | colon | valStart
  | aItemOrClose | aItem | aInStr | aEsc | aCommaOrClose
  | commaOrClose | done
deriving DecidableEq, Repr

/-- One character per step.  `kcur` accumulates the current key reversed,
`key` is the last completed key, `icur` the current item reversed, `items`
the current value's items reversed, `acc` the completed fields reversed. -/
def jsonLoadsObjAux : List Char → ObjPS → List Char → String → List Char →
    List String → List (String × List String) → Option (List (String × List String))
  | [], ObjPS.done, _, _, _, _, acc => some acc.reverse
  | [], _, _, _, _, _, _ => none
  | c :: cs, ObjPS.keyOrClose, kcur, key, icur, items, acc =>
    if c = ' ' then jsonLoadsObjAux cs ObjPS.keyOrClose kcur key icur items acc
    else if c = '}' then jsonLoadsObjAux cs ObjPS.done kcur key icur items acc
    else if c = '"' then jsonLoadsObjAux cs ObjPS.inKey [] key icur items acc
    else none
  | c :: cs, ObjPS.key, kcur, key, icur, items, acc =>
    if c = ' ' then jsonLoadsObjAux cs ObjPS.key kcur key icur items acc
    else if c = '"' then jsonLoadsObjAux cs ObjPS.inKey [] key icur items acc
    else none
  | c :: cs, ObjPS.inKey, kcur, key, icur, items, acc =>
    if c = '"' then jsonLoadsObjAux cs ObjPS.colon [] (String.mk kcur.reverse) icur items acc
    else if c = '\\' then jsonLoadsObjAux cs ObjPS.keyEsc kcur key icur items acc
    else jsonLoadsObjAux cs ObjPS.inKey (c :: kcur) key icur items acc
  | c :: cs, ObjPS.keyEsc, kcur, key, icur, items, acc =>
    if c = '"' || c = '\\' then jsonLoadsObjAux cs ObjPS.inKey (c :: kcur) key icur items acc
    else none
  | c :: cs, ObjPS.colon, kcur, key, icur, items, acc =>
    if c = ' ' then jsonLoadsObjAux cs ObjPS.colon kcur key icur items acc
    else if c = ':' then jsonLoadsObjAux cs ObjPS.valStart kcur key icur items acc
    else none
  | c :: cs, ObjPS.valStart, kcur, key, icur, items, acc =>
    if c = ' ' then jsonLoadsObjAux cs ObjPS.valStart kcur key icur items acc
    else if c = '[' then jsonLoadsObjAux cs ObjPS.aItemOrClose kcur key icur [] acc
    else none
  | c :: cs, ObjPS.aItemOrClose, kcur, key, icur, items, acc =>
    if c = ' ' then jsonLoadsObjAux cs ObjPS.aItemOrClose kcur key icur items acc
    else if c = ']' then
      jsonLoadsObjAux cs ObjPS.commaOrClose kcur key icur items ((key, items.reverse) :: acc)
    else if c = '"' then jsonLoadsObjAux cs ObjPS.aInStr kcur key [] items acc
    else none
  | c :: cs, ObjPS.aItem, kcur, key, icur, items, acc =>
    if c = ' ' then jsonLoadsObjAux cs ObjPS.aItem kcur key icur items acc
    else if c = '"' then jsonLoadsObjAux cs ObjPS.aInStr kcur key [] items acc
    else none
  | c :: cs, ObjPS.aInStr, kcur, key, icur, items, acc =>
    if c = '"' then
      jsonLoadsObjAux cs ObjPS.aCommaOrClose kcur key [] (String.mk icur.reverse :: items) acc
    else if c = '\\' then jsonLoadsObjAux cs ObjPS.aEsc kcur key icur items acc
    else jsonLoadsObjAux cs ObjPS.aInStr kcur key (c :: icur) items acc
  | c :: cs, ObjPS.aEsc, kcur, key, icur, items, acc =>
    if c = '"' || c = '\\' then jsonLoadsObjAux cs ObjPS.aInStr kcur key (c :: icur) items acc
    else none
  | c :: cs, ObjPS.aCommaOrClose, kcur, key, icur, items, acc =>
    if c = ' ' then jsonLoadsObjAux cs ObjPS.aCommaOrClose kcur key icur items acc
    else if c = ',' then jsonLoadsObjAux cs ObjPS.aItem kcur key icur items acc
    else if c = ']' then
      jsonLoadsObjAux cs ObjPS.commaOrClose kcur key icur items ((key, items.reverse) :: acc)
    else none
  | c :: cs, ObjPS.commaOrClose, kcur, key, icur, items, acc =>
    if c = ' ' then jsonLoadsObjAux cs ObjPS.commaOrClose kcur key icur items acc
    else if c = ',' then jsonLoadsObjAux cs ObjPS.key kcur key icur items acc
    else if c = '}' then jsonLoadsObjAux cs ObjPS.done kcur key icur items acc
    else none
  | c :: cs, ObjPS.done, kcur, key, icur, items, acc =>
    if c = ' ' then jsonLoadsObjAux cs ObjPS.done kcur key icur items acc
    else none

/-- Model of `json.loads` on a JSON object mapping string keys to arrays of strings.
`none` covers both a `json.JSONDecodeError` (caught in `get_hd_logo_url`
and turned into a 500) and a well-formed JSON value that is not such an
object — on the latter the real code's `result_data.get(...)` raises an
uncaught `AttributeError`, also surfacing as a server error; both are
folded into the 500 branch of the model. -/
def jsonLoadsObj (s : String) : Option (List (String × List String)) :=
  match s.data with
  | '{' :: rest => jsonLoadsObjAux rest ObjPS.keyOrClose [] "" [] [] []
  | _ => none

/-- Model of `dict.get(key)` on the parsed object: the value of the first matching
key, if any. -/
def objGet (fields : List (String × List String)) (k : String) : Option (List String) :=
  (fields.find? (fun p => p.1 == k)).map (fun p => p.2)

/-- The kwargs of `generate_logo_async.delay(...)` in `create_logo_task`:
the hand-off to the Generation Worker.  The `delay` call passes
`task_id`, `company_name`, `industry`, `styles` and `colors` and no
`description` kwarg; absence of the kwarg is `description = none`. -/
structure WorkerMsg where
  task_id : String
  company_name : String
  industry : String
  styles : List String
  colors : List String
  description : Option String
deriving DecidableEq, Repr

/-- What `create_logo_task` produces: the returned (refreshed) row, the
store after the insert commit, and the message enqueued for the worker. -/
structure CreateOutcome where
  task : LogoTask
  db : DB
  msg : WorkerMsg
deriving DecidableEq, Repr

/-- Function `create_logo_task` (`app/services/logo_service.py`).  `uuid_raw` is the
value drawn from `uuid4()` (the external randomness source); the task id is
that value with dashes removed.  The row is inserted with status
`"pending"`, `styles` / `colors` stored via Python `str()`, `result` NULL,
`create_time = now`.  The function returns immediately with the persisted
row after enqueuing the worker message; no generation work happens here. -/
def create_logo_task (db : DB) (uuid_raw : String) (now : Int)
    (openid company_name industry : String)
    (styles colors : List String) (description : Option String) : CreateOutcome :=
  let task_id := stripDashes uuid_raw
  let db_task : LogoTask :=
    { id := task_id
      openid := openid
      company_name := company_name
      industry := industry
      styles := pyStrOfList styles
      colors := pyStrOfList colors
      description := description
      status := "pending"
      result := none
      create_time := now }
  { task := db_task
    db := db ++ [db_task]
    msg :=
      { task_id := task_id
        company_name := company_name
        industry := industry
        styles := styles
        colors := colors
        description := none } }

/-- Function `get_task_status` (`app/services/logo_service.py`): the scoped lookup,
returned together with the store so that its frame behaviour (no write) is
a statement, not a typing artifact. -/
def get_task_status (db : DB) (task_id openid : String) : Option LogoTask × DB :=
  (findTask db task_id openid, db)

/-- The `/logo/status` route (`query_logo_status` in `app/api/logo.py`):
a `None` from the service becomes a 404. -/
def query_logo_status (db : DB) (task_id openid : String) : Except HErr LogoTask × DB :=
  match get_task_status db task_id openid with
  | (none, db1) => (Except.error ⟨404, "任务不存在（可能已过期或ID错误）"⟩, db1)
  | (some t, db1) => (Except.ok t, db1)

/-- The row update the timeout reconciliation writes: `status="fail"`,
`result="任务处理超时"`. -/
def failStamp (t : LogoTask) : LogoTask :=
  { t with status := "fail", result := some "任务处理超时" }

/-- Function `get_valid_task_result` (`app/services/logo_service.py`): scoped lookup
(404), lazy 7-day expiry (410), then the stuck-pending reconciliation
(over 5 minutes pending: write `status="fail"`,
`result="任务处理超时"`, commit, raise 504), else return the row. -/
def get_valid_task_result (db : DB) (now : Int) (task_id openid : String) :
    Except HErr LogoTask × DB :=
  match findTask db task_id openid with
  | none => (Except.error ⟨404, "任务不存在（ID错误或不属于当前用户）"⟩, db)
  | some task =>
    if task.create_time < now - 7 * 24 * 60 * 60 then
      (Except.error ⟨410, "任务已过期（超过7天），请重新生成"⟩, db)
    else if task.status = "pending" ∧ now - task.create_time > 5 * 60 then
      let db1 := updateFirst (fun t => t.id == task_id && t.openid == openid) failStamp db
      (Except.error ⟨504, "任务处理超时，请重新提交"⟩, db1)
    else
      (Except.ok task, db)

/-- The JSON body the remote AI service returns, as the dictionary
`call_ai_logo_api` and the worker read it.  A `none` field is an absent
key.  The adapter's own docstring documents the success shape as
`{"success": True, "images": [...]}`; the worker's comment assumes
`{"success": true, "logos": [...]}`. -/
structure ProviderResponse where
  success : Bool
  images : Option (List String)
  logos : Option (List String)
  message : Option String
  errorMsg : Option String
deriving DecidableEq, Repr

/-- Outcome of the `requests.post` call inside `call_ai_logo_api`. -/
inductive HttpOutcome
  | timeout
  | connError
  | badJson
  | resp (ok : Bool) (status_code : Nat) (body : ProviderResponse)
deriving DecidableEq, Repr

/-- Function `call_ai_logo_api` (`app/utils/ai_client.py`): maps transport failures
to distinct `HTTPException`s, rejects `response.ok = False`, rejects
`success` false, validates that the `"images"` key holds a non-empty list
(`response_data.get("images", [])`), and returns the whole response
dictionary unchanged. -/
def call_ai_logo_api (h : HttpOutcome) : Except HErr ProviderResponse :=
  match h with
  | HttpOutcome.timeout => Except.error ⟨504, "AI服务调用超时，请稍后重试"⟩
  | HttpOutcome.connError => Except.error ⟨503, "AI服务连接失败，请检查服务是否可用"⟩
  | HttpOutcome.badJson => Except.error ⟨500, "AI服务返回数据格式错误"⟩
  | HttpOutcome.resp ok status_code body =>
    if !ok then
      Except.error ⟨500, "LOGO生成失败：" ++
        (body.errorMsg.getD ("AI服务调用失败（状态码：" ++ toString status_code ++ "）"))⟩
    else if !body.success then
      Except.error ⟨500, "LOGO生成失败：" ++ (body.message.getD "AI服务返回非成功状态")⟩
    else if (body.images.getD []) = [] then
      Except.error ⟨500, "AI服务未返回有效的LOGO图片数据"⟩
    else
      Except.ok body

/-- What one execution of the worker body observes from
`call_ai_logo_api`: either the call raised (any exception enters the
`except` branch) or it returned a response dictionary. -/
inductive AiOutcome
  | raises (e : HErr)
  | returns (body : ProviderResponse)
deriving DecidableEq, Repr

/-- The row update the worker writes on a parsed success:
`status="success"`, `result=json.dumps(logos)`. -/
def successStamp (logos : List String) (t : LogoTask) : LogoTask :=
  { t with status := "success", result := some (jsonDumps logos) }

/-- Result of one execution of the `generate_logo_async` body.
`committed db` — the body returned normally, leaving the store as `db`.
`retryRaised db` — control reached `self.retry(exc=e, countdown=5)`, which
always raises (Celery re-raises `Retry` while the `max_retries=3` budget
lasts, then the original exception); the statements after it that would
set `status="fail"` are unreachable, so the store is left as `db`. -/
inductive AttemptResult
  | committed (db : DB)
  | retryRaised (db : DB)
deriving DecidableEq, Repr

/-- One execution of the body of `generate_logo_async`
(`app/tasks/logo_generate.py`).  On a returned dictionary with truthy
`"success"` it reads `ai_result["logos"]` — a `KeyError` when the key is
absent, caught by the `except` and sent to `self.retry` — and, when the
key is present, updates the row found by `filter(LogoTask.id == task_id)`
to `status="success"`, `result=json.dumps(logos)` (no-op when no row
matches, since `if task:` guards the write). -/
def generate_logo_async_attempt (db : DB) (task_id : String) (ai : AiOutcome) :
    AttemptResult :=
  match ai with
  | AiOutcome.raises _ => AttemptResult.retryRaised db
  | AiOutcome.returns body =>
    if body.success then
      match body.logos with
      | some logos =>
        AttemptResult.committed
          (updateFirst (fun t => t.id == task_id) (successStamp logos) db)
      | none => AttemptResult.retryRaised db
    else
      AttemptResult.retryRaised db

/-- Celery's driving of `generate_logo_async`: run the body; on a raised
retry re-run it against the next adapter outcome while retries remain
(`max_retries = 3` retries after the first execution); once the budget is
spent the exception propagates and no further store write happens. -/
def runWorker (db : DB) (task_id : String) : List AiOutcome → Nat → DB
  | [], _ => db
  | ai :: rest, retriesLeft =>
    match generate_logo_async_attempt db task_id ai with
    | AttemptResult.committed db1 => db1
    | AttemptResult.retryRaised db1 =>
      match retriesLeft with
      | 0 => db1
      | Nat.succ n => runWorker db1 task_id rest n

/-- The value returned by `get_hd_logo_url`. -/
structure HdResponse where
  logo_id : String
  hd_url : String
  expires_at : Int
deriving DecidableEq, Repr

/-- Function `get_hd_logo_url` (`app/services/image_service.py`): scoped lookup
(404); `status != "success" or not result` (400); parse `result` as a JSON
object and read `hd_keys` via `.get("hd_keys", [])`, an empty list giving
a 404; sign the first key with `generate_presigned_url(key, 86400)` —
modelled by the explicit `sign` input, a falsy URL giving a 500 — and
return the URL with `expires_at = now + 86400` seconds.  The function
performs no store write; the store is returned to state that. -/
def get_hd_logo_url (db : DB) (now : Int) (sign : String → Int → Option String)
    (openid logo_id : String) : Except HErr HdResponse × DB :=
  match findTask db logo_id openid with
  | none => (Except.error ⟨404, "LOGO记录不存在（ID错误或不属于当前用户）"⟩, db)
  | some task =>
    if task.status ≠ "success" ∨ task.result.getD "" = "" then
      (Except.error ⟨400, "LOGO未生成成功，无法获取高清图片"⟩, db)
    else
      match jsonLoadsObj (task.result.getD "") with
      | none => (Except.error ⟨500, "高清资源信息解析失败"⟩, db)
      | some fields =>
        match (objGet fields "hd_keys").getD [] with
        | [] => (Except.error ⟨404, "该LOGO无高清资源可用"⟩, db)
        | hd_key :: _ =>
          match sign hd_key 86400 with
          | none => (Except.error ⟨500, "生成高清图片URL失败"⟩, db)
          | some hd_url =>
            if hd_url = "" then (Except.error ⟨500, "生成高清图片URL失败"⟩, db)
            else
              (Except.ok { logo_id := logo_id, hd_url := hd_url,
                           expires_at := now + 86400 }, db)

/-- The body of the `/logo/result` response (`LogoResultResponse` in
`app/api/logo.py`), with `create_time` kept as seconds. -/
structure ResultResponse where
  task_id : String
  status : String
  logos : List String
  company_name : String
  industry : String
  styles : List String
  colors : List String
  create_time : Int
  message : Option String
deriving DecidableEq, Repr

/-- The `status_messages` mapping of `get_logo_result`: on `"fail"` the
message is `task.result or "生成失败，请重试"` (a NULL or empty result
falls to the default). -/
def statusMessage (task : LogoTask) : Option String :=
  if task.status = "pending" then some "任务等待处理中"
  else if task.status = "processing" then some "LOGO生成中，请稍后"
  else if task.status = "success" then none
  else some (if task.result.getD "" = "" then "生成失败，请重试" else task.result.getD "")

/-- The `/logo/result` route (`get_logo_result` in `app/api/logo.py`):
run `get_valid_task_result`, then `json.loads` the stored `styles` and
`colors` (a falsy column value yields `[]`; a parse failure is caught as a
500 `"结果解析失败，可能是数据损坏"`), then for a `"success"` status with a
truthy `result` parse the logo list and reject any URL that does not start
with `http://` or `https://` (500). -/
def get_logo_result (db : DB) (now : Int) (task_id openid : String) :
    Except HErr ResultResponse × DB :=
  match get_valid_task_result db now task_id openid with
  | (Except.error e, db1) => (Except.error e, db1)
  | (Except.ok task, db1) =>
    match (if task.styles = "" then some [] else jsonLoads task.styles) with
    | none => (Except.error ⟨500, "结果解析失败，可能是数据损坏"⟩, db1)
    | some styles =>
      match (if task.colors = "" then some [] else jsonLoads task.colors) with
      | none => (Except.error ⟨500, "结果解析失败，可能是数据损坏"⟩, db1)
      | some colors =>
        let logosE : Except HErr (List String) :=
          if task.status = "success" ∧ task.result.getD "" ≠ "" then
            match jsonLoads (task.result.getD "") with
            | none => Except.error ⟨500, "结果解析失败，可能是数据损坏"⟩
            | some logos =>
              if logos.all (fun u => u.startsWith "http://" || u.startsWith "https://") then
                Except.ok logos
              else
                Except.error ⟨500, "生成结果包含无效URL，请重新生成"⟩
          else Except.ok []
        match logosE with
        | Except.error e => (Except.error e, db1)
        | Except.ok logos =>
          (Except.ok
            { task_id := task.id
              status := task.status
              logos := logos
              company_name := task.company_name
              industry := task.industry
              styles := styles
              colors := colors
              create_time := task.create_time
              message := statusMessage task }, db1)

/-- The store underlying either result of a worker-body execution. -/
def AttemptResult.store : AttemptResult → DB
  | AttemptResult.committed db => db
  | AttemptResult.retryRaised db => db

/-- A fixed pending task, as `create_logo_task` would have inserted it. -/
def c1task : LogoTask :=
  ⟨"t1", "u1", "云启科技", "互联网", "['极简风']", "['#1677FF']", none, "pending", none, 0⟩

/-- A failing adapter call, as the worker's `except` branch observes it. -/
def c1fail : AiOutcome := AiOutcome.raises ⟨503, "AI服务连接失败，请检查服务是否可用"⟩

/-- A fixed pending task for the C2 run. -/
def c2task : LogoTask :=
  ⟨"t2", "u1", "云启科技", "互联网", "['极简风']", "['#1677FF']", none, "pending", none, 0⟩

/-- A provider response of exactly the shape `call_ai_logo_api` documents
and validates: `{"success": true, "images": [...]}` with a non-empty image
list (and no `"logos"` key). -/
def c2resp : ProviderResponse :=
  ⟨true, some ["http://img/1.png", "http://img/2.png"], none, none, none⟩

/-- A concrete `create` call: empty store, drawn uuid `"a1b2-c3d4"`,
non-empty styles and colors. -/
def c4out : CreateOutcome :=
  create_logo_task [] "a1b2-c3d4" 0 "u1" "云启科技" "互联网" ["极简风"] ["#1677FF"]
    (some "蓝色主调")

/-- A stale pending task for the C3 witness: created at time 0, queried at
time 400 (> 300 seconds, < 7 days). -/
def c3task : LogoTask :=
  ⟨"t3", "u1", "云启科技", "互联网", "['极简风']", "['#1677FF']", none, "pending", none, 0⟩

/-- An 8-day-old succeeded task for the C9 witness. -/
def c9taskS : LogoTask :=
  ⟨"t9", "u1", "云启科技", "互联网", "['极简风']", "['#1677FF']", none, "success",
    some "[\"http://img/1.png\"]", 0⟩

/-- An 8-day-old still-pending task for the C9 witness: expiry wins over
the staleness reconciliation. -/
def c9taskP : LogoTask :=
  ⟨"t9", "u1", "云启科技", "互联网", "['极简风']", "['#1677FF']", none, "pending", none, 0⟩

/-- A task owned by user `"u2"` for the C6 witness. -/
def c6task : LogoTask :=
  ⟨"t6", "u2", "云启科技", "互联网", "['极简风']", "['#1677FF']", none, "pending", none, 0⟩

/-- Presigned-URL signer used in concrete instances. -/
def cdnSign : String → Int → Option String :=
  fun key _ => some ("https://cdn.example.com/" ++ key)

/-- A stale pending task used to exhibit the result path's write. -/
def c10task : LogoTask :=
  ⟨"t10", "u1", "云启科技", "互联网", "['极简风']", "['#1677FF']", none, "pending", none, 0⟩

/-- A task already timeout-failed by the lifecycle service, for C5. -/
def c5task : LogoTask :=
  ⟨"t5", "u1", "云启科技", "互联网", "['极简风']", "['#1677FF']", none, "fail",
    some "任务处理超时", 0⟩

/-- A provider response the worker can parse: truthy `success` and a
`"logos"` key. -/
def c5resp : ProviderResponse :=
  ⟨true, some ["http://img/1.png"], some ["http://img/1.png"], none, none⟩

/-- A succeeded task whose stored result parses but holds an empty
`hd_keys` list. -/
def c7task : LogoTask :=
  ⟨"t7", "u1", "云启科技", "互联网", "['极简风']", "['#1677FF']", none, "success",
    some "\x7b\"logos\": [\"http://img/1.png\"], \"hd_keys\": []\x7d", 0⟩

/-- A succeeded task whose stored result carries a high-resolution key. -/
def c7okTask : LogoTask :=
  ⟨"t7", "u1", "云启科技", "互联网", "['极简风']", "['#1677FF']", none, "success",
    some "\x7b\"logos\": [\"http://img/1.png\"], \"hd_keys\": [\"hd/logo_t7_0_hd.png\"]\x7d", 0⟩

/-- A still-pending task queried over hdUrl. -/
def c7pendTask : LogoTask :=
  ⟨"t7", "u1", "云启科技", "互联网", "['极简风']", "['#1677FF']", none, "pending", none, 0⟩

/-- A concrete `create` call with a description, for C8. -/
def c8out : CreateOutcome :=
  create_logo_task [] "e5f6-a7b8" 0 "u1" "云启科技" "互联网" ["极简风", "科技风"]
    ["#1677FF"] (some "蓝色简约")

/-- A pre-existing row under a different id, for the C8 witness. -/
def c8oldTask : LogoTask :=
  ⟨"zz11", "u1", "老企业", "制造业", "['复古风']", "['#303133']", none, "success",
    some "[\"http://img/z.png\"]", 0⟩

theorem find?_updateFirst (p : LogoTask → Bool) (f : LogoTask → LogoTask)
    (hf : ∀ t, p (f t) = p t) :
    ∀ l : DB, List.find? p (updateFirst p f l) = (List.find? p l).map f := by
  intro l
  induction l with
  | nil => rfl
  | cons t ts ih =>
    unfold updateFirst
    by_cases h : p t
    · rw [if_pos h, List.find?_cons_of_pos _ ((hf t).symm ▸ h), List.find?_cons_of_pos _ h]
      rfl
    · rw [if_neg h, List.find?_cons_of_neg _ h, List.find?_cons_of_neg _ h, ih]

/-- C1.  The claim is that a worker that exhausts its retry budget persists
`status="fail"` with a non-empty error message in `result`, never leaving
the task pending.  On the code this fails: `self.retry(exc=e, countdown=5)`
always raises, so the `task.status = "fail"` write after it is unreachable
(and even that dead code never writes `task.result`).  Evaluated here: with
the adapter failing on every execution (initial + 3 retries), the store is
unchanged — the task is still `pending` with a NULL result, not `fail`
with an error message. -/
theorem c1_retry_exhaustion_leaves_task_pending :
    call_ai_logo_api HttpOutcome.connError =
      Except.error ⟨503, "AI服务连接失败，请检查服务是否可用"⟩ ∧
    runWorker [c1task] "t1" [c1fail, c1fail, c1fail, c1fail] 3 = [c1task] ∧
    (findTask (runWorker [c1task] "t1" [c1fail, c1fail, c1fail, c1fail] 3) "t1" "u1").map
      (fun t => (t.status, t.result)) = some ("pending", none) ∧
    c1task.status ≠ "fail" := by decide

/-- C2.  The claim is that an adapter success carrying a non-empty image
list makes the worker persist `status="success"` with exactly that list.
On the code this fails: the adapter validates and returns the `"images"`
key, but the worker reads `ai_result["logos"]` — on the adapter's own
documented response shape that is a `KeyError`, which the `except` branch
turns into retries, leaving the task pending with no result at all.
Evaluated here: the adapter accepts `c2resp` (non-empty `images`), yet
after every execution the store is unchanged. -/
theorem c2_adapter_success_not_persisted :
    call_ai_logo_api (HttpOutcome.resp true 200 c2resp) = Except.ok c2resp ∧
    c2resp.images = some ["http://img/1.png", "http://img/2.png"] ∧
    runWorker [c2task] "t2" (List.replicate 4 (AiOutcome.returns c2resp)) 3 = [c2task] ∧
    (findTask (runWorker [c2task] "t2" (List.replicate 4 (AiOutcome.returns c2resp)) 3)
      "t2" "u1").map (fun t => (t.status, t.result)) = some ("pending", none) := by decide

/-- C4.  The claim is that creation parameters round-trip unchanged through
`result`.  On the code this fails for every non-empty styles/colors list:
`create_logo_task` stores `str(styles)` — CPython renders `"['极简风']"`
with single quotes — while `get_logo_result` reads the column back with
`json.loads`, which rejects single-quoted strings, so the read raises the
500 `"结果解析失败，可能是数据损坏"` instead of returning the parameters. -/
theorem c4_parameter_roundtrip_broken :
    c4out.task.styles = "['极简风']" ∧
    jsonLoads c4out.task.styles = none ∧
    get_logo_result c4out.db 0 "a1b2c3d4" "u1" =
      (Except.error ⟨500, "结果解析失败，可能是数据损坏"⟩, c4out.db) := by decide

/-- C3.  A task owned by the caller that is still pending more than 5
minutes after creation and inside the 7-day retention window: the result
call fails with the 504 Timeout, persists `status="fail"` with the
synthetic message `"任务处理超时"` on that row, and a second immediate
result call returns the task with `status="fail"` instead of raising
again — the reconciliation is idempotent. -/
theorem c3_stale_pending_reconciliation
    (db : DB) (now : Int) (tid oid : String) (t : LogoTask)
    (hfind : findTask db tid oid = some t)
    (hpend : t.status = "pending")
    (hstale : now - t.create_time > 5 * 60)
    (hfresh : ¬ t.create_time < now - 7 * 24 * 60 * 60) :
    get_valid_task_result db now tid oid =
      (Except.error ⟨504, "任务处理超时，请重新提交"⟩,
        updateFirst (fun x => x.id == tid && x.openid == oid) failStamp db) ∧
    findTask (get_valid_task_result db now tid oid).2 tid oid = some (failStamp t) ∧
    get_valid_task_result (get_valid_task_result db now tid oid).2 now tid oid =
      (Except.ok (failStamp t), (get_valid_task_result db now tid oid).2) := by
  have h1 : get_valid_task_result db now tid oid =
      (Except.error ⟨504, "任务处理超时，请重新提交"⟩,
        updateFirst (fun x => x.id == tid && x.openid == oid) failStamp db) := by
    simp only [get_valid_task_result, hfind]
    rw [if_neg hfresh, if_pos (And.intro hpend hstale)]
  have hfind2 : List.find? (fun x => x.id == tid && x.openid == oid) db = some t := hfind
  have h2 : findTask (updateFirst (fun x => x.id == tid && x.openid == oid) failStamp db)
      tid oid = some (failStamp t) := by
    show List.find? _ (updateFirst _ failStamp db) = _
    rw [find?_updateFirst (fun x => x.id == tid && x.openid == oid) failStamp
      (fun x => rfl) db, hfind2]
    rfl
  have h3 : get_valid_task_result
      (updateFirst (fun x => x.id == tid && x.openid == oid) failStamp db) now tid oid =
      (Except.ok (failStamp t),
        updateFirst (fun x => x.id == tid && x.openid == oid) failStamp db) := by
    simp only [get_valid_task_result, h2]
    rw [if_neg (show ¬ (failStamp t).create_time < now - 7 * 24 * 60 * 60 from hfresh)]
    rw [if_neg (show ¬ ((failStamp t).status = "pending" ∧
        now - (failStamp t).create_time > 5 * 60)
      from fun hc => by have hs := hc.1; simp [failStamp] at hs)]
  refine ⟨h1, ?_, ?_⟩
  · rw [h1]
    exact h2
  · rw [h1]
    exact h3

/-- C3 witness at a concrete store and clock. -/
theorem c3_stale_pending_reconciliation_witness :
    get_valid_task_result [c3task] 400 "t3" "u1" =
      (Except.error ⟨504, "任务处理超时，请重新提交"⟩,
        updateFirst (fun x => x.id == "t3" && x.openid == "u1") failStamp [c3task]) ∧
    findTask (get_valid_task_result [c3task] 400 "t3" "u1").2 "t3" "u1" =
      some (failStamp c3task) ∧
    get_valid_task_result (get_valid_task_result [c3task] 400 "t3" "u1").2 400 "t3" "u1" =
      (Except.ok (failStamp c3task), (get_valid_task_result [c3task] 400 "t3" "u1").2) :=
  c3_stale_pending_reconciliation [c3task] 400 "t3" "u1" c3task (by decide) (by decide)
    (by decide) (by decide)

/-- C9.  A task owned by the caller whose creation time lies more than 7
days in the past: the result call fails with the 410 Expired regardless of
the task's status, and the store is left unchanged — in particular the
expiry check fires before the pending-staleness timeout check, which for a
stale pending task would otherwise have written a fail status. -/
theorem c9_expired_before_staleness
    (db : DB) (now : Int) (tid oid : String) (t : LogoTask)
    (hfind : findTask db tid oid = some t)
    (hexp : t.create_time < now - 7 * 24 * 60 * 60) :
    get_valid_task_result db now tid oid =
      (Except.error ⟨410, "任务已过期（超过7天），请重新生成"⟩, db) ∧
    get_logo_result db now tid oid =
      (Except.error ⟨410, "任务已过期（超过7天），请重新生成"⟩, db) := by
  have h1 : get_valid_task_result db now tid oid =
      (Except.error ⟨410, "任务已过期（超过7天），请重新生成"⟩, db) := by
    simp only [get_valid_task_result, hfind]
    rw [if_pos hexp]
  exact ⟨h1, by simp only [get_logo_result, h1]⟩

/-- C9 witness: queried 8 days (691200 s) after creation, a succeeded and
a pending task both fail Expired with no store write. -/
theorem c9_expired_before_staleness_witness :
    (get_valid_task_result [c9taskS] 691200 "t9" "u1" =
        (Except.error ⟨410, "任务已过期（超过7天），请重新生成"⟩, [c9taskS]) ∧
      get_logo_result [c9taskS] 691200 "t9" "u1" =
        (Except.error ⟨410, "任务已过期（超过7天），请重新生成"⟩, [c9taskS])) ∧
    (get_valid_task_result [c9taskP] 691200 "t9" "u1" =
        (Except.error ⟨410, "任务已过期（超过7天），请重新生成"⟩, [c9taskP]) ∧
      get_logo_result [c9taskP] 691200 "t9" "u1" =
        (Except.error ⟨410, "任务已过期（超过7天），请重新生成"⟩, [c9taskP])) :=
  ⟨c9_expired_before_staleness [c9taskS] 691200 "t9" "u1" c9taskS (by decide) (by decide),
    c9_expired_before_staleness [c9taskP] 691200 "t9" "u1" c9taskP (by decide) (by decide)⟩

/-- When no row matches the (task id, owner) pair, every read path gives
its not-found outcome and leaves the store unchanged. -/
theorem scoped_lookup_notfound
    (db : DB) (now : Int) (tid oid : String) (sign : String → Int → Option String)
    (h : ∀ t ∈ db, ¬ (t.id = tid ∧ t.openid = oid)) :
    get_task_status db tid oid = (none, db) ∧
    query_logo_status db tid oid =
      (Except.error ⟨404, "任务不存在（可能已过期或ID错误）"⟩, db) ∧
    get_valid_task_result db now tid oid =
      (Except.error ⟨404, "任务不存在（ID错误或不属于当前用户）"⟩, db) ∧
    get_hd_logo_url db now sign oid tid =
      (Except.error ⟨404, "LOGO记录不存在（ID错误或不属于当前用户）"⟩, db) := by
  have hfind : findTask db tid oid = none := by
    rw [findTask, List.find?_eq_none]
    intro x hx hand
    simp only [Bool.and_eq_true, beq_iff_eq] at hand
    exact h x hx hand
  exact ⟨by simp only [get_task_status, hfind],
    by simp only [query_logo_status, get_task_status, hfind],
    by simp only [get_valid_task_result, hfind],
    by simp only [get_hd_logo_url, hfind]⟩

/-- C6.  Owner scoping: when no row of the store matches the
(task id, owner) pair, the status, result and hdUrl reads each give their
NotFound outcome; and adding a row that carries the requested task id but
a different owner leaves every one of those outcomes the NotFound one —
the caller cannot distinguish a nonexistent task from another user's task
on any of the three operations. -/
theorem c6_cross_owner_indistinguishable
    (db : DB) (now : Int) (tid oid : String) (sign : String → Int → Option String)
    (h : ∀ t ∈ db, ¬ (t.id = tid ∧ t.openid = oid)) :
    (get_task_status db tid oid = (none, db) ∧
      query_logo_status db tid oid =
        (Except.error ⟨404, "任务不存在（可能已过期或ID错误）"⟩, db) ∧
      get_valid_task_result db now tid oid =
        (Except.error ⟨404, "任务不存在（ID错误或不属于当前用户）"⟩, db) ∧
      get_hd_logo_url db now sign oid tid =
        (Except.error ⟨404, "LOGO记录不存在（ID错误或不属于当前用户）"⟩, db)) ∧
    (∀ u : LogoTask, u.id = tid → u.openid ≠ oid →
      get_task_status (db ++ [u]) tid oid = (none, db ++ [u]) ∧
      query_logo_status (db ++ [u]) tid oid =
        (Except.error ⟨404, "任务不存在（可能已过期或ID错误）"⟩, db ++ [u]) ∧
      get_valid_task_result (db ++ [u]) now tid oid =
        (Except.error ⟨404, "任务不存在（ID错误或不属于当前用户）"⟩, db ++ [u]) ∧
      get_hd_logo_url (db ++ [u]) now sign oid tid =
        (Except.error ⟨404, "LOGO记录不存在（ID错误或不属于当前用户）"⟩, db ++ [u])) := by
  refine ⟨scoped_lookup_notfound db now tid oid sign h, ?_⟩
  intro u _ hown
  refine scoped_lookup_notfound (db ++ [u]) now tid oid sign ?_
  intro t ht
  rcases List.mem_append.mp ht with h1 | h2
  · exact h t h1
  · have ht2 : t = u := by simpa using h2
    subst ht2
    exact fun hc => hown hc.2

/-- C6 witness: user `"u1"` queries task id `"t6"` against a store holding
only `"u2"`-owned rows. -/
theorem c6_cross_owner_indistinguishable_witness :
    (get_task_status [c6task] "t6" "u1" = (none, [c6task]) ∧
      query_logo_status [c6task] "t6" "u1" =
        (Except.error ⟨404, "任务不存在（可能已过期或ID错误）"⟩, [c6task]) ∧
      get_valid_task_result [c6task] 0 "t6" "u1" =
        (Except.error ⟨404, "任务不存在（ID错误或不属于当前用户）"⟩, [c6task]) ∧
      get_hd_logo_url [c6task] 0 cdnSign "u1" "t6" =
        (Except.error ⟨404, "LOGO记录不存在（ID错误或不属于当前用户）"⟩, [c6task])) ∧
    (∀ u : LogoTask, u.id = "t6" → u.openid ≠ "u1" →
      get_task_status ([c6task] ++ [u]) "t6" "u1" = (none, [c6task] ++ [u]) ∧
      query_logo_status ([c6task] ++ [u]) "t6" "u1" =
        (Except.error ⟨404, "任务不存在（可能已过期或ID错误）"⟩, [c6task] ++ [u]) ∧
      get_valid_task_result ([c6task] ++ [u]) 0 "t6" "u1" =
        (Except.error ⟨404, "任务不存在（ID错误或不属于当前用户）"⟩, [c6task] ++ [u]) ∧
      get_hd_logo_url ([c6task] ++ [u]) 0 cdnSign "u1" "t6" =
        (Except.error ⟨404, "LOGO记录不存在（ID错误或不属于当前用户）"⟩, [c6task] ++ [u])) :=
  c6_cross_owner_indistinguishable [c6task] 0 "t6" "u1" cdnSign (by decide)

/-- C10.  The status lookup is purely observational: for every input it
returns the store unchanged (so no task's status, result or timestamps
move) and its answer is exactly the scoped lookup — while the result read
path, by contrast, does mutate the store on a stale pending task. -/
theorem c10_status_lookup_is_pure (db : DB) (tid oid : String) :
    (get_task_status db tid oid).2 = db ∧
    (get_task_status db tid oid).1 = findTask db tid oid ∧
    (get_valid_task_result [c10task] 400 "t10" "u1").2 ≠ [c10task] :=
  ⟨rfl, rfl, by decide⟩

/-- C5 counterexample.  The claim is that a terminal status is never
replaced by the worker.  Concretely: a task already persisted as
`status="fail"` (the lifecycle service's timeout write) is overwritten to
`status="success"` by a late worker success write — the worker's write
performs no status re-verification. -/
theorem c5_worker_overwrites_terminal_counterexample :
    c5task.status = "fail" ∧
    (findTask (generate_logo_async_attempt [c5task] "t5"
        (AiOutcome.returns c5resp)).store "t5" "u1").map LogoTask.status =
      some "success" := by decide

/-- C5 as amended.  The lifecycle service's timeout write does re-verify
that the status is still pending — a found task whose status is not
`"pending"` is never mutated by the result path — but the worker's success
write has no such guard: on a parsed success it unconditionally stamps
`status="success"` over the matching row, so whatever status was stored
(including a terminal timeout-fail) ends up `"success"`. -/
theorem c5_amended_transition_guards :
    (∀ (db : DB) (now : Int) (tid oid : String) (t : LogoTask),
      findTask db tid oid = some t → t.status ≠ "pending" →
      (get_valid_task_result db now tid oid).2 = db) ∧
    (∀ (db : DB) (tid : String) (body : ProviderResponse) (logos : List String),
      body.success = true → body.logos = some logos →
      generate_logo_async_attempt db tid (AiOutcome.returns body) =
        AttemptResult.committed
          (updateFirst (fun x => x.id == tid) (successStamp logos) db)) ∧
    (∀ (db : DB) (tid : String) (t : LogoTask) (body : ProviderResponse)
        (logos : List String),
      body.success = true → body.logos = some logos →
      List.find? (fun x => x.id == tid) db = some t →
      (List.find? (fun x => x.id == tid)
        (generate_logo_async_attempt db tid (AiOutcome.returns body)).store).map
          LogoTask.status = some "success") := by
  refine ⟨?_, ?_, ?_⟩
  · intro db now tid oid t hfind hnp
    simp only [get_valid_task_result, hfind]
    by_cases hexp : t.create_time < now - 7 * 24 * 60 * 60
    · rw [if_pos hexp]
    · rw [if_neg hexp, if_neg (fun hc => hnp hc.1)]
  · intro db tid body logos hsucc hlogos
    simp only [generate_logo_async_attempt, hsucc, hlogos]
    rfl
  · intro db tid t body logos hsucc hlogos hfind
    simp only [generate_logo_async_attempt, hsucc, hlogos]
    show (List.find? (fun x => x.id == tid)
      (updateFirst (fun x => x.id == tid) (successStamp logos) db)).map LogoTask.status = _
    rw [find?_updateFirst (fun x => x.id == tid) (successStamp logos) (fun x => rfl) db,
      hfind]
    rfl

/-- C5 amended witness: the timeout-failed `c5task` is untouched by a
result read but stamped `"success"` by the worker. -/
theorem c5_amended_transition_guards_witness :
    (get_valid_task_result [c5task] 0 "t5" "u1").2 = [c5task] ∧
    generate_logo_async_attempt [c5task] "t5" (AiOutcome.returns c5resp) =
      AttemptResult.committed
        (updateFirst (fun x => x.id == "t5")
          (successStamp ["http://img/1.png"]) [c5task]) ∧
    (List.find? (fun x => x.id == "t5")
      (generate_logo_async_attempt [c5task] "t5"
        (AiOutcome.returns c5resp)).store).map LogoTask.status = some "success" :=
  ⟨c5_amended_transition_guards.1 [c5task] 0 "t5" "u1" c5task (by decide) (by decide),
    c5_amended_transition_guards.2.1 [c5task] "t5" c5resp ["http://img/1.png"] rfl rfl,
    c5_amended_transition_guards.2.2 [c5task] "t5" c5task c5resp ["http://img/1.png"]
      rfl rfl (by decide)⟩

/-- C7 counterexample.  The claim is that a task without stored
high-resolution keys fails with NotReady — the 400-class error of the hdUrl
contract.  Concretely: on a succeeded task whose result holds no hd keys
the code raises a 404 (the NotFound status code), not the 400 NotReady. -/
theorem c7_missing_hd_keys_404_counterexample :
    (get_hd_logo_url [c7task] 0 cdnSign "u1" "t7").1 =
      Except.error ⟨404, "该LOGO无高清资源可用"⟩ ∧
    (HErr.mk 404 "该LOGO无高清资源可用").status_code ≠ 400 := by decide

/-- C7 as amended.  For a task owned by the caller: a status other than
`"success"` (or an empty stored result) fails with the 400
`"LOGO未生成成功，无法获取高清图片"`; a result that parses but carries no
high-resolution keys fails with a 404 (`"该LOGO无高清资源可用"`), not the
400 NotReady; with a non-empty key list and a signer that returns a URL
the call returns that URL with the absolute expiry exactly 86400 seconds
(24 h) after issuance; and in every case the store is unchanged (the
operation is a purely derived view). -/
theorem c7_amended_hd_url_issuance :
    (∀ (db : DB) (now : Int) (sign : String → Int → Option String)
        (oid lid : String) (t : LogoTask),
      findTask db lid oid = some t →
      (t.status ≠ "success" ∨ t.result.getD "" = "") →
      get_hd_logo_url db now sign oid lid =
        (Except.error ⟨400, "LOGO未生成成功，无法获取高清图片"⟩, db)) ∧
    (∀ (db : DB) (now : Int) (sign : String → Int → Option String)
        (oid lid : String) (t : LogoTask) (fields : List (String × List String)),
      findTask db lid oid = some t →
      t.status = "success" → t.result.getD "" ≠ "" →
      jsonLoadsObj (t.result.getD "") = some fields →
      (objGet fields "hd_keys").getD [] = [] →
      get_hd_logo_url db now sign oid lid =
        (Except.error ⟨404, "该LOGO无高清资源可用"⟩, db)) ∧
    (∀ (db : DB) (now : Int) (sign : String → Int → Option String)
        (oid lid : String) (t : LogoTask) (fields : List (String × List String))
        (k : String) (ks : List String) (url : String),
      findTask db lid oid = some t →
      t.status = "success" → t.result.getD "" ≠ "" →
      jsonLoadsObj (t.result.getD "") = some fields →
      (objGet fields "hd_keys").getD [] = k :: ks →
      sign k 86400 = some url → url ≠ "" →
      get_hd_logo_url db now sign oid lid =
        (Except.ok ⟨lid, url, now + 86400⟩, db)) ∧
    (∀ (db : DB) (now : Int) (sign : String → Int → Option String) (oid lid : String),
      (get_hd_logo_url db now sign oid lid).2 = db) := by
  refine ⟨?_, ?_, ?_, ?_⟩
  · intro db now sign oid lid t hfind hcond
    simp only [get_hd_logo_url, hfind]
    rw [if_pos hcond]
  · intro db now sign oid lid t fields hfind hsucc hres hparse hkeys
    simp only [get_hd_logo_url, hfind]
    rw [if_neg (fun hc => hc.elim (fun hx => hx hsucc) (fun hx => hres hx))]
    simp only [hparse, hkeys]
  · intro db now sign oid lid t fields k ks url hfind hsucc hres hparse hkeys hsign hurl
    simp only [get_hd_logo_url, hfind]
    rw [if_neg (fun hc => hc.elim (fun hx => hx hsucc) (fun hx => hres hx))]
    simp only [hparse, hkeys, hsign]
    rw [if_neg hurl]
  · intro db now sign oid lid
    rcases hf : findTask db lid oid with _ | t
    · simp only [get_hd_logo_url, hf]
    · simp only [get_hd_logo_url, hf]
      by_cases hc : t.status ≠ "success" ∨ t.result.getD "" = ""
      · rw [if_pos hc]
      · rw [if_neg hc]
        rcases hp : jsonLoadsObj (t.result.getD "") with _ | fields
        · simp only [hp]
        · simp only [hp]
          rcases hk : (objGet fields "hd_keys").getD [] with _ | ⟨k, ks⟩
          · simp only [hk]
          · simp only [hk]
            rcases hs : sign k 86400 with _ | url
            · simp only [hs]
            · simp only [hs]
              by_cases hu : url = ""
              · rw [if_pos hu]
              · rw [if_neg hu]

/-- C7 amended witness: a pending task gets the 400, the empty-`hd_keys`
task gets the 404, the keyed task gets a signed URL expiring at
`0 + 86400`, and each call leaves the store unchanged. -/
theorem c7_amended_hd_url_issuance_witness :
    get_hd_logo_url [c7pendTask] 0 cdnSign "u1" "t7" =
      (Except.error ⟨400, "LOGO未生成成功，无法获取高清图片"⟩, [c7pendTask]) ∧
    get_hd_logo_url [c7task] 0 cdnSign "u1" "t7" =
      (Except.error ⟨404, "该LOGO无高清资源可用"⟩, [c7task]) ∧
    get_hd_logo_url [c7okTask] 0 cdnSign "u1" "t7" =
      (Except.ok ⟨"t7", "https://cdn.example.com/hd/logo_t7_0_hd.png", 0 + 86400⟩,
        [c7okTask]) ∧
    (get_hd_logo_url [c7okTask] 0 cdnSign "u1" "t7").2 = [c7okTask] :=
  ⟨c7_amended_hd_url_issuance.1 [c7pendTask] 0 cdnSign "u1" "t7" c7pendTask
      (by decide) (by decide),
    c7_amended_hd_url_issuance.2.1 [c7task] 0 cdnSign "u1" "t7" c7task
      [("logos", ["http://img/1.png"]), ("hd_keys", [])]
      (by decide) (by decide) (by decide) (by decide) (by decide),
    c7_amended_hd_url_issuance.2.2.1 [c7okTask] 0 cdnSign "u1" "t7" c7okTask
      [("logos", ["http://img/1.png"]), ("hd_keys", ["hd/logo_t7_0_hd.png"])]
      "hd/logo_t7_0_hd.png" [] "https://cdn.example.com/hd/logo_t7_0_hd.png"
      (by decide) (by decide) (by decide) (by decide) (by decide) rfl (by decide),
    c7_amended_hd_url_issuance.2.2.2 [c7okTask] 0 cdnSign "u1" "t7"⟩

/-- C8 counterexample.  The claim is that `create` hands the task id and
all generation parameters — including the optional description — to the
Generation Worker.  Concretely: the enqueued worker message carries no
description kwarg even though the created row stores one; the worker's
provider call therefore falls back to its empty-string default. -/
theorem c8_description_not_enqueued_counterexample :
    c8out.task.description = some "蓝色简约" ∧
    c8out.msg.description = none ∧
    c8out.msg.description ≠ c8out.task.description := by decide

/-- C8 as amended.  Under an id draw that is fresh for the store (the
`uuid4` contract), `create` persists a row with status `"pending"`, the
given parameters and a NULL result, returns it immediately (no generation
happens on this path), leaves the store with exactly one row carrying the
new id, and enqueues a worker message with the task id, company name,
industry, styles and colors — but without the description, which is
persisted only. -/
theorem c8_amended_create_contract
    (db : DB) (uuid_raw : String) (now : Int) (oid cn ind : String)
    (st co : List String) (de : Option String)
    (hfresh : ∀ t ∈ db, t.id ≠ stripDashes uuid_raw) :
    (create_logo_task db uuid_raw now oid cn ind st co de).task =
      { id := stripDashes uuid_raw, openid := oid, company_name := cn, industry := ind,
        styles := pyStrOfList st, colors := pyStrOfList co, description := de,
        status := "pending", result := none, create_time := now } ∧
    (create_logo_task db uuid_raw now oid cn ind st co de).db =
      db ++ [(create_logo_task db uuid_raw now oid cn ind st co de).task] ∧
    (((create_logo_task db uuid_raw now oid cn ind st co de).db).filter
      (fun t => t.id == stripDashes uuid_raw)).length = 1 ∧
    (create_logo_task db uuid_raw now oid cn ind st co de).msg =
      { task_id := stripDashes uuid_raw, company_name := cn, industry := ind,
        styles := st, colors := co, description := none } := by
  refine ⟨rfl, rfl, ?_, rfl⟩
  rw [show (create_logo_task db uuid_raw now oid cn ind st co de).db =
      db ++ [(create_logo_task db uuid_raw now oid cn ind st co de).task] from rfl]
  rw [List.filter_append]
  have hnil : db.filter (fun t => t.id == stripDashes uuid_raw) = [] := by
    rw [List.filter_eq_nil_iff]
    intro a ha
    simp only [beq_iff_eq]
    exact hfresh a ha
  rw [hnil]
  have hid : (create_logo_task db uuid_raw now oid cn ind st co de).task.id =
      stripDashes uuid_raw := rfl
  simp [List.filter, hid]

/-- C8 amended witness at a concrete store and uuid draw. -/
theorem c8_amended_create_contract_witness :
    (create_logo_task [c8oldTask] "e5f6-a7b8" 0 "u1" "云启科技" "互联网"
        ["极简风", "科技风"] ["#1677FF"] (some "蓝色简约")).task =
      { id := "e5f6a7b8", openid := "u1", company_name := "云启科技", industry := "互联网",
        styles := "['极简风', '科技风']", colors := "['#1677FF']",
        description := some "蓝色简约", status := "pending", result := none,
        create_time := 0 } ∧
    (create_logo_task [c8oldTask] "e5f6-a7b8" 0 "u1" "云启科技" "互联网"
        ["极简风", "科技风"] ["#1677FF"] (some "蓝色简约")).db =
      [c8oldTask] ++ [(create_logo_task [c8oldTask] "e5f6-a7b8" 0 "u1" "云启科技" "互联网"
        ["极简风", "科技风"] ["#1677FF"] (some "蓝色简约")).task] ∧
    (((create_logo_task [c8oldTask] "e5f6-a7b8" 0 "u1" "云启科技" "互联网"
        ["极简风", "科技风"] ["#1677FF"] (some "蓝色简约")).db).filter
      (fun t => t.id == "e5f6a7b8")).length = 1 ∧
    (create_logo_task [c8oldTask] "e5f6-a7b8" 0 "u1" "云启科技" "互联网"
        ["极简风", "科技风"] ["#1677FF"] (some "蓝色简约")).msg =
      { task_id := "e5f6a7b8", company_name := "云启科技", industry := "互联网",
        styles := ["极简风", "科技风"], colors := ["#1677FF"], description := none } := by
  have h := c8_amended_create_contract [c8oldTask] "e5f6-a7b8" 0 "u1" "云启科技" "互联网"
    ["极简风", "科技风"] ["#1677FF"] (some "蓝色简约") (by decide)
  exact h

end LogoGen
